import Mathlib

/-!
# MH-Z19 CO2 sensor driver (`esphome/components/mhz19/mhz19.cpp`)

A shallow embedding of the driver's frame codec, poll cycle and command set,
followed by the properties of the specification that are checked against it.

Bytes (`uint8_t`) are natural numbers below 256; every 8-bit operation of the
source carries an explicit `% 256`.  32-bit quantities carry `% 2 ^ 32`.
Byte buffers (`const uint8_t *`) are lists of bytes.
-/

namespace esphome
namespace mhz19

/-! ## Constants (`mhz19.cpp` lines 8-18) -/

def MHZ19_REQUEST_LENGTH : Nat := 8
def MHZ19_RESPONSE_LENGTH : Nat := 9

def MHZ19_COMMAND_RECOVER : List Nat := [0xFF, 0x01, 0x78, 0x00, 0x00, 0x00, 0x00, 0x00]
def MHZ19_COMMAND_GET_PPM : List Nat := [0xFF, 0x01, 0x86, 0x00, 0x00, 0x00, 0x00, 0x00]
def MHZ19_COMMAND_ABC_ENABLE : List Nat := [0xFF, 0x01, 0x79, 0xA0, 0x00, 0x00, 0x00, 0x00]
def MHZ19_COMMAND_ABC_DISABLE : List Nat := [0xFF, 0x01, 0x79, 0x00, 0x00, 0x00, 0x00, 0x00]
def MHZ19_COMMAND_CALIBRATE_ZERO : List Nat := [0xFF, 0x01, 0x87, 0x00, 0x00, 0x00, 0x00, 0x00]
def MHZ19_COMMAND_DETECTION_RANGE_0_2000PPM : List Nat :=
  [0xFF, 0x01, 0x99, 0x00, 0x00, 0x00, 0x07, 0xD0]
def MHZ19_COMMAND_DETECTION_RANGE_0_5000PPM : List Nat :=
  [0xFF, 0x01, 0x99, 0x00, 0x00, 0x00, 0x13, 0x88]
def MHZ19_COMMAND_DETECTION_RANGE_0_10000PPM : List Nat :=
  [0xFF, 0x01, 0x99, 0x00, 0x00, 0x00, 0x27, 0x10]

/-! ## Frame codec -/

/-- A buffer holds bytes only: every element is below 256. -/
def IsBytes (B : List Nat) : Prop := ∀ b ∈ B, b < 256

instance (B : List Nat) : Decidable (IsBytes B) := by
  unfold IsBytes; infer_instance

/-- The source's `command[i]`: the byte at index `i` of the buffer. -/
def byteAt (command : List Nat) (i : Nat) : Nat := command.getD i 0

/-- The `for` loop of `mhz19_checksum` (lines 21-24): `sum` starts at 0 and, for
`i = 1, ..., MHZ19_REQUEST_LENGTH - 1`, `sum += command[i]` in 8-bit arithmetic. -/
def mhz19_checksum_sum (command : List Nat) : Nat :=
  (List.range' 1 (MHZ19_REQUEST_LENGTH - 1)).foldl
    (fun sum i => (sum + byteAt command i) % 256) 0

/-- `uint8_t mhz19_checksum(const uint8_t *command)` (lines 20-26):
`return 0xFF - sum + 0x01;` converted to `uint8_t`. -/
def mhz19_checksum (command : List Nat) : Nat :=
  (0xFF - mhz19_checksum_sum command + 0x01) % 256

/-- The specification's checksum, in its words: one byte
`0xFF - (sum of bytes[1..7] of the frame, truncated to 8 bits) + 1` in 8-bit arithmetic. -/
def computeChecksum_spec (B : List Nat) : Nat :=
  (0xFF - (B.drop 1).sum % 256 + 1) % 256

/-! ## Collaborators declared outside `mhz19.cpp` -/

/-- Modelled from the spec: the boot calibration policy `MHZ19ABCLogic` of `mhz19.h`,
an "enumerated variant {unspecified, enabled, disabled}". -/
inductive MHZ19ABCLogic where
  | MHZ19_ABC_NONE
  | MHZ19_ABC_ENABLED
  | MHZ19_ABC_DISABLED
  deriving DecidableEq, Repr

/-- Modelled from the spec: the detection range `MHZ19DetectionRange` of `mhz19.h`,
an "enumerated variant {default, 0-2000ppm, 0-5000ppm, 0-10000ppm}". -/
inductive MHZ19DetectionRange where
  | MHZ19_DETECTION_RANGE_DEFAULT
  | MHZ19_DETECTION_RANGE_0_2000PPM
  | MHZ19_DETECTION_RANGE_0_5000PPM
  | MHZ19_DETECTION_RANGE_0_10000PPM
  deriving DecidableEq, Repr

/-- Modelled from the spec: the serial transport `uart::UARTDevice`, "a byte-duplex
channel exposing bytes available, read one byte, write N bytes, flush/drain-complete".
`rx` holds the bytes buffered on the input side (oldest first), `tx` every byte
written so far (oldest first), `unflushed` how many bytes at the end of `tx` may still
sit in a lower layer, `incoming` the bytes the peer delivers once the pending output
has been transmitted, and `read_array_calls` counts the multi-byte reads attempted.
`written_over_input` counts the bytes that were written while input bytes were still
buffered; it only records the order of writes and reads and steers nothing. -/
structure UARTDevice where
  rx : List Nat
  tx : List Nat
  unflushed : Nat
  incoming : List Nat
  read_array_calls : Nat
  written_over_input : Nat
  deriving DecidableEq, Repr

namespace UARTDevice

/-- Modelled from the spec: "bytes available", the number of buffered input bytes. -/
def available (u : UARTDevice) : Nat := u.rx.length

/-- Modelled from the spec: "read one byte": the oldest buffered byte is returned
and removed from the input buffer. -/
def read (u : UARTDevice) : Nat × UARTDevice :=
  (u.rx.headD 0, { u with rx := u.rx.tail })

/-- Modelled from the spec: "write N bytes": the first `len` bytes of `data` are
appended to the output. -/
def write_array (u : UARTDevice) (data : List Nat) (len : Nat) : UARTDevice :=
  { u with
    tx := u.tx ++ data.take len
    unflushed := u.unflushed + (data.take len).length
    written_over_input :=
      u.written_over_input + (if u.rx = [] then 0 else (data.take len).length) }

/-- Modelled from the spec: writing a single byte. -/
def write_byte (u : UARTDevice) (data : Nat) : UARTDevice :=
  { u with
    tx := u.tx ++ [data]
    unflushed := u.unflushed + 1
    written_over_input := u.written_over_input + (if u.rx = [] then 0 else 1) }

/-- Modelled from the spec: "flush/drain-complete": no written byte is left buffered
in a lower layer; the peer's reply to the transmitted bytes then reaches the input
buffer. -/
def flush (u : UARTDevice) : UARTDevice :=
  { u with unflushed := 0, rx := u.rx ++ u.incoming, incoming := [] }

/-- Modelled from the spec: "attempt to read exactly `len` bytes. Fails (transport
error) if fewer than `len` bytes become available": on success the `len` oldest input
bytes are returned and consumed, on failure nothing is consumed. -/
def read_array (u : UARTDevice) (len : Nat) : Bool × List Nat × UARTDevice :=
  if len ≤ u.rx.length then
    (true, u.rx.take len,
      { u with rx := u.rx.drop len, read_array_calls := u.read_array_calls + 1 })
  else
    (false, [], { u with read_array_calls := u.read_array_calls + 1 })

end UARTDevice

/-- The transport once a command frame has been sent: the stale input is gone and the
peer's reply is buffered, the frame and its checksum are appended to the output, and
nothing is left unflushed.  Used to state what `mhz19_write_command_` does. -/
def uart_after_send (u : UARTDevice) (command : List Nat) : UARTDevice :=
  { u with
    rx := u.incoming
    tx := u.tx ++ command ++ [mhz19_checksum command]
    unflushed := 0
    incoming := [] }

/-- Modelled from the spec: an external numeric sink (`sensor::Sensor`); `published`
lists the states handed to `publish_state`, oldest first.  The driver only publishes
integers (a `uint16_t` and a small `int`), which the sink's number type holds exactly. -/
structure Sensor where
  published : List Int
  deriving DecidableEq, Repr

/-- Modelled from the spec: publishing one state to a sink. -/
def Sensor.publish_state (s : Sensor) (state : Int) : Sensor :=
  { s with published := s.published ++ [state] }

/-- Modelled from the spec: the members of `MHZ19Component` declared in `mhz19.h`: the
transport it derives from, the "warning/clear status signal" of the host component, the
"two optional numeric sinks" (`none` is `nullptr`) and the configuration (boot
calibration policy, warm-up window in seconds as a `uint32_t`, detection range). -/
structure MHZ19Component where
  uart : UARTDevice
  status_warning : Bool
  temperature_sensor_ : Option Sensor
  co2_sensor_ : Option Sensor
  abc_boot_logic_ : MHZ19ABCLogic
  warmup_seconds_ : Nat
  detection_range_ : MHZ19DetectionRange
  deriving DecidableEq, Repr

namespace MHZ19Component

/-- Modelled from the spec: raising the non-fatal warning status. -/
def status_set_warning (c : MHZ19Component) : MHZ19Component :=
  { c with status_warning := true }

/-- Modelled from the spec: clearing the warning status. -/
def status_clear_warning (c : MHZ19Component) : MHZ19Component :=
  { c with status_warning := false }

/-! ## The driver (`mhz19.cpp` lines 28-126) -/

/-- The drain loop of `mhz19_write_command_` (lines 116-117):
`while (this->available()) this->read();`. -/
def empty_rx_buffer (u : UARTDevice) : UARTDevice :=
  if u.available ≠ 0 then empty_rx_buffer u.read.2 else u
termination_by u.rx.length
decreasing_by
  simp only [UARTDevice.read, UARTDevice.available] at *
  cases h : u.rx with
  | nil => simp_all
  | cons a t => simp

/-- `bool MHZ19Component::mhz19_write_command_(const uint8_t *command, uint8_t *response)`
(lines 114-126).  `response` is the caller's buffer (`none` is `nullptr`); the result is
the returned flag, the buffer after the call, and the component after the call. -/
def mhz19_write_command_ (c : MHZ19Component) (command : List Nat)
    (response : Option (List Nat)) : Bool × Option (List Nat) × MHZ19Component :=
  let u1 := empty_rx_buffer c.uart
  let u2 := u1.write_array command MHZ19_REQUEST_LENGTH
  let u3 := u2.write_byte (mhz19_checksum command)
  let u4 := u3.flush
  match response with
  | none => (true, none, { c with uart := u4 })
  | some buf =>
    let r := u4.read_array MHZ19_RESPONSE_LENGTH
    (r.1, some (if r.1 then r.2.1 else buf), { c with uart := r.2.2 })

/-- `void MHZ19Component::abc_enable()` (lines 87-90). -/
def abc_enable (c : MHZ19Component) : MHZ19Component :=
  (c.mhz19_write_command_ MHZ19_COMMAND_ABC_ENABLE none).2.2

/-- `void MHZ19Component::abc_disable()` (lines 92-95). -/
def abc_disable (c : MHZ19Component) : MHZ19Component :=
  (c.mhz19_write_command_ MHZ19_COMMAND_ABC_DISABLE none).2.2

/-- `void MHZ19Component::recover()` (lines 77-80). -/
def recover (c : MHZ19Component) : MHZ19Component :=
  (c.mhz19_write_command_ MHZ19_COMMAND_RECOVER none).2.2

/-- `void MHZ19Component::calibrate_zero()` (lines 82-85). -/
def calibrate_zero (c : MHZ19Component) : MHZ19Component :=
  (c.mhz19_write_command_ MHZ19_COMMAND_CALIBRATE_ZERO none).2.2

/-- `void MHZ19Component::setup()` (lines 28-34). -/
def setup (c : MHZ19Component) : MHZ19Component :=
  if c.abc_boot_logic_ = .MHZ19_ABC_ENABLED then c.abc_enable
  else if c.abc_boot_logic_ = .MHZ19_ABC_DISABLED then c.abc_disable
  else c

/-- `void MHZ19Component::detection_range(MHZ19DetectionRange detection_range)`
(lines 97-112): a `switch` with no case for the default range. -/
def detection_range (c : MHZ19Component) (detection_range : MHZ19DetectionRange) :
    MHZ19Component :=
  match detection_range with
  | .MHZ19_DETECTION_RANGE_0_2000PPM =>
    (c.mhz19_write_command_ MHZ19_COMMAND_DETECTION_RANGE_0_2000PPM none).2.2
  | .MHZ19_DETECTION_RANGE_0_5000PPM =>
    (c.mhz19_write_command_ MHZ19_COMMAND_DETECTION_RANGE_0_5000PPM none).2.2
  | .MHZ19_DETECTION_RANGE_0_10000PPM =>
    (c.mhz19_write_command_ MHZ19_COMMAND_DETECTION_RANGE_0_10000PPM none).2.2
  | .MHZ19_DETECTION_RANGE_DEFAULT => c

/-- The publishing tail of `update` (lines 71-74): each value goes to its sink when
the sink is configured. -/
def publish_readings (c : MHZ19Component) (ppm : Nat) (temp : Int) : MHZ19Component :=
  let c1 :=
    match c.co2_sensor_ with
    | some s => { c with co2_sensor_ := some (s.publish_state (ppm : Int)) }
    | none => c
  match c1.temperature_sensor_ with
  | some s => { c1 with temperature_sensor_ := some (s.publish_state temp) }
  | none => c1

/-- `void MHZ19Component::update()` (lines 36-75); `millis` is the value `millis()`
returns at the call.  The local `response` array is uninitialised in the source and
only read after `read_array` filled it. -/
def update (c : MHZ19Component) (millis : Nat) : MHZ19Component :=
  let now_ms := millis % 2 ^ 32
  let warmup_ms := (c.warmup_seconds_ * 1000) % 2 ^ 32
  if now_ms < warmup_ms then
    c.status_set_warning
  else
    let r := c.mhz19_write_command_ MHZ19_COMMAND_GET_PPM
      (some (List.replicate MHZ19_RESPONSE_LENGTH 0))
    let response := r.2.1.getD []
    let c1 := r.2.2
    if !r.1 then
      c1.status_set_warning
    else if byteAt response 0 ≠ 0xFF ∨ byteAt response 1 ≠ 0x86 then
      c1.status_set_warning
    else
      let checksum := mhz19_checksum response
      if byteAt response 8 ≠ checksum then
        c1.status_set_warning
      else
        let c2 := c1.status_clear_warning
        let ppm := (((byteAt response 2 % 65536) <<< 8) ||| byteAt response 3) % 65536
        let temp : Int := (byteAt response 4 : Int) - 40
        c2.publish_readings ppm temp

end MHZ19Component

/-! ## Wire format of transmitted frames -/

/-- The command frame of the serial wire format: 9 bytes
`[0xFF, 0x01, cmd, 5 payload bytes, checksum]` whose byte 8 is `mhz19_checksum` of the
first 8 bytes; the last conjunct is the check `update` applies to a response
(lines 58-59), run on the frame itself. -/
def IsCommandFrame (f : List Nat) : Prop :=
  f.length = 9 ∧ IsBytes f ∧ byteAt f 0 = 0xFF ∧ byteAt f 1 = 0x01 ∧
    byteAt f 8 = mhz19_checksum (f.take 8) ∧ byteAt f 8 = mhz19_checksum f

instance (f : List Nat) : Decidable (IsCommandFrame f) := by
  unfold IsCommandFrame; infer_instance

/-- The bytes an operation added to the transport's output. -/
def transmitted (before after : MHZ19Component) : List Nat :=
  after.uart.tx.drop before.uart.tx.length

/-- The operation wrote nothing to the transport. -/
def SendsNothing (before after : MHZ19Component) : Prop :=
  after.uart.tx = before.uart.tx

/-- The operation kept the earlier output and added exactly one command frame. -/
def SendsOneCommandFrame (before after : MHZ19Component) : Prop :=
  after.uart.tx = before.uart.tx ++ transmitted before after ∧
    IsCommandFrame (transmitted before after)

/-! ## Concrete inputs used to exercise the model -/

/-- A well-formed reading: 1000 ppm, 0 degrees, checksum `0x67`. -/
def sample_response : List Nat := [0xFF, 0x86, 0x03, 0xE8, 0x28, 0x00, 0x00, 0x00, 0x67]

/-- A transport with three stale input bytes whose peer answers with `reply`. -/
def sample_uart (reply : List Nat) : UARTDevice :=
  { rx := [0x12, 0x34, 0x56], tx := [], unflushed := 0, incoming := reply,
    read_array_calls := 0, written_over_input := 0 }

/-- A component with both sinks configured and a warm-up window of `warmup` seconds,
whose peer answers with `reply`. -/
def sample_component (warmup : Nat) (reply : List Nat) : MHZ19Component :=
  { uart := sample_uart reply
    status_warning := true
    temperature_sensor_ := some { published := [] }
    co2_sensor_ := some { published := [] }
    abc_boot_logic_ := .MHZ19_ABC_NONE
    warmup_seconds_ := warmup
    detection_range_ := .MHZ19_DETECTION_RANGE_DEFAULT }

/-! ## Helper lemmas on fixed-length buffers -/

theorem length_eq_eight {B : List Nat} (h : B.length = 8) :
    ∃ b0 b1 b2 b3 b4 b5 b6 b7, B = [b0, b1, b2, b3, b4, b5, b6, b7] := by
  rcases B with _ | ⟨b0, _ | ⟨b1, _ | ⟨b2, _ | ⟨b3, _ | ⟨b4, _ | ⟨b5, _ | ⟨b6, _ | ⟨b7, _ | ⟨b8, t⟩⟩⟩⟩⟩⟩⟩⟩⟩ <;>
    simp at h
  exact ⟨b0, b1, b2, b3, b4, b5, b6, b7, rfl⟩

theorem mhz19_checksum_sum_lt (command : List Nat) : mhz19_checksum_sum command < 256 := by
  simp only [mhz19_checksum_sum, MHZ19_REQUEST_LENGTH, List.range', List.foldl, Nat.reduceAdd,
    Nat.reduceSub]
  omega

theorem mhz19_checksum_sum_eq (command : List Nat) :
    mhz19_checksum_sum command =
      (byteAt command 1 + byteAt command 2 + byteAt command 3 + byteAt command 4 +
        byteAt command 5 + byteAt command 6 + byteAt command 7) % 256 := by
  simp only [mhz19_checksum_sum, MHZ19_REQUEST_LENGTH, List.range', List.foldl, Nat.reduceAdd,
    Nat.reduceSub]
  omega

theorem mhz19_checksum_lt (command : List Nat) : mhz19_checksum command < 256 :=
  Nat.mod_lt _ (by decide)

/-- On an 8-byte frame the loop's sum is the sum of the frame without its byte 0. -/
theorem mhz19_checksum_sum_drop {B : List Nat} (hlen : B.length = 8) :
    mhz19_checksum_sum B = (B.drop 1).sum % 256 := by
  obtain ⟨b0, b1, b2, b3, b4, b5, b6, b7, rfl⟩ := length_eq_eight hlen
  rw [mhz19_checksum_sum_eq]
  simp [byteAt, Nat.add_assoc]

/-! ## Helper lemmas on the transport and the driver -/

theorem length_eq_nine {r : List Nat} (h : r.length = 9) :
    ∃ r0 r1 r2 r3 r4 r5 r6 r7 r8, r = [r0, r1, r2, r3, r4, r5, r6, r7, r8] := by
  rcases r with _ | ⟨r0, _ | ⟨r1, _ | ⟨r2, _ | ⟨r3, _ | ⟨r4, _ | ⟨r5, _ | ⟨r6, _ | ⟨r7, _ | ⟨r8, _ | ⟨r9, t⟩⟩⟩⟩⟩⟩⟩⟩⟩⟩ <;>
    simp at h
  exact ⟨r0, r1, r2, r3, r4, r5, r6, r7, r8, rfl⟩

theorem byteAt_lt {B : List Nat} (hB : IsBytes B) (i : Nat) : byteAt B i < 256 := by
  unfold byteAt
  rw [List.getD_eq_getElem?_getD]
  cases h : B[i]? with
  | none => simp
  | some b =>
    have hmem : b ∈ B := List.getElem?_mem h
    simpa using hB b hmem

/-- The big-endian decoding of line 66 on two bytes: `(uint16_t(hi) << 8) | lo`. -/
theorem ppm_decode (hi lo : Nat) (hhi : hi < 256) (hlo : lo < 256) :
    (((hi % 65536) <<< 8) ||| lo) % 65536 = 256 * hi + lo := by
  have h1 : hi % 65536 = hi := Nat.mod_eq_of_lt (by omega)
  have h2 : (2 : Nat) ^ 8 * hi + lo = 2 ^ 8 * hi ||| lo :=
    Nat.mul_add_lt_is_or (by simpa using hlo) hi
  rw [h1, Nat.shiftLeft_eq, Nat.mul_comm hi, ← h2]
  norm_num
  omega

namespace MHZ19Component

/-- The drain loop terminates with an empty input buffer and touches nothing else. -/
theorem empty_rx_buffer_eq (u : UARTDevice) : empty_rx_buffer u = { u with rx := [] } := by
  obtain ⟨rx, tx, unflushed, incoming, calls, over⟩ := u
  induction rx with
  | nil =>
    rw [empty_rx_buffer]
    simp [UARTDevice.available]
  | cons a t ih =>
    rw [empty_rx_buffer]
    simp only [UARTDevice.available, UARTDevice.read, List.length_cons, ne_eq,
      Nat.add_one_ne_zero, not_false_eq_true, ↓reduceIte, List.tail_cons]
    rw [ih]

theorem mhz19_write_command_none (c : MHZ19Component) (command : List Nat)
    (hlen : command.length = 8) :
    c.mhz19_write_command_ command none =
      (true, none, { c with uart := uart_after_send c.uart command }) := by
  simp [mhz19_write_command_, empty_rx_buffer_eq, UARTDevice.write_array,
    UARTDevice.write_byte, UARTDevice.flush, uart_after_send, MHZ19_REQUEST_LENGTH,
    List.take_of_length_le (Nat.le_of_eq hlen)]

theorem mhz19_write_command_some (c : MHZ19Component) (command buf : List Nat)
    (hlen : command.length = 8) :
    c.mhz19_write_command_ command (some buf) =
      if 9 ≤ c.uart.incoming.length then
        (true, some (c.uart.incoming.take 9),
          { c with uart := { uart_after_send c.uart command with
                              rx := c.uart.incoming.drop 9
                              read_array_calls := c.uart.read_array_calls + 1 } })
      else
        (false, some buf,
          { c with uart := { uart_after_send c.uart command with
                              read_array_calls := c.uart.read_array_calls + 1 } }) := by
  simp only [mhz19_write_command_, empty_rx_buffer_eq, UARTDevice.write_array,
    UARTDevice.write_byte, UARTDevice.flush, uart_after_send, MHZ19_REQUEST_LENGTH,
    List.take_of_length_le (Nat.le_of_eq hlen), UARTDevice.read_array, MHZ19_RESPONSE_LENGTH,
    List.nil_append, List.append_assoc]
  split <;> simp

/-- Once the warm-up window has elapsed on the 32-bit clock, the gate of line 39 is open. -/
theorem gate_open_of_elapsed (w millis : Nat) (hms : millis < 2 ^ 32) (hwarm : w * 1000 ≤ millis) :
    ¬ (millis % 2 ^ 32 < w * 1000 % 2 ^ 32) := by
  rw [Nat.mod_eq_of_lt hms, Nat.mod_eq_of_lt (Nat.lt_of_le_of_lt hwarm hms)]
  omega

/-- The transport after a poll that read a 9-byte reply. -/
theorem update_of_reply (c : MHZ19Component) (millis : Nat) (r : List Nat)
    (hgate : ¬ (millis % 2 ^ 32 < c.warmup_seconds_ * 1000 % 2 ^ 32))
    (hlen : r.length = 9) (hreply : c.uart.incoming = r) :
    c.update millis =
      if byteAt r 0 ≠ 0xFF ∨ byteAt r 1 ≠ 0x86 ∨ byteAt r 8 ≠ mhz19_checksum r then
        { c with
          uart := { uart_after_send c.uart MHZ19_COMMAND_GET_PPM with
                    rx := []
                    read_array_calls := c.uart.read_array_calls + 1 }
          status_warning := true }
      else
        publish_readings
          { c with
            uart := { uart_after_send c.uart MHZ19_COMMAND_GET_PPM with
                      rx := []
                      read_array_calls := c.uart.read_array_calls + 1 }
            status_warning := false }
          ((((byteAt r 2 % 65536) <<< 8) ||| byteAt r 3) % 65536) ((byteAt r 4 : Int) - 40) := by
  have h9 : 9 ≤ c.uart.incoming.length := by rw [hreply, hlen]
  have htake : c.uart.incoming.take 9 = r := by
    rw [hreply]; exact List.take_of_length_le (Nat.le_of_eq hlen)
  have hdrop : c.uart.incoming.drop 9 = [] := by
    rw [hreply]; exact List.drop_of_length_le (Nat.le_of_eq hlen)
  unfold update
  simp only [hgate, ↓reduceIte, mhz19_write_command_some c MHZ19_COMMAND_GET_PPM _ rfl, h9,
    htake, hdrop, Option.getD_some, Bool.not_true, Bool.false_eq_true, status_set_warning,
    status_clear_warning]
  split_ifs <;> first | rfl | (exfalso; tauto)

/-- While the gate of line 39 is closed, `update` only raises the warning. -/
theorem update_gate_closed (c : MHZ19Component) (millis : Nat)
    (hgate : millis % 2 ^ 32 < c.warmup_seconds_ * 1000 % 2 ^ 32) :
    c.update millis = c.status_set_warning := by
  unfold update
  simp only [hgate, ↓reduceIte]

/-- A poll whose 9-byte read fails: the frame was sent, one read was attempted, the
warning is raised and nothing else changes. -/
theorem update_of_short_reply (c : MHZ19Component) (millis : Nat)
    (hgate : ¬ (millis % 2 ^ 32 < c.warmup_seconds_ * 1000 % 2 ^ 32))
    (hshort : c.uart.incoming.length < 9) :
    c.update millis =
      { c with
        uart := { uart_after_send c.uart MHZ19_COMMAND_GET_PPM with
                  read_array_calls := c.uart.read_array_calls + 1 }
        status_warning := true } := by
  have h9 : ¬ (9 ≤ c.uart.incoming.length) := by omega
  unfold update
  simp only [hgate, ↓reduceIte, mhz19_write_command_some c MHZ19_COMMAND_GET_PPM _ rfl, h9,
    Bool.not_false, status_set_warning]

/-- A poll whose 9-byte read succeeds, whatever follows the 9 bytes on the line. -/
theorem update_of_long_reply (c : MHZ19Component) (millis : Nat)
    (hgate : ¬ (millis % 2 ^ 32 < c.warmup_seconds_ * 1000 % 2 ^ 32))
    (h9 : 9 ≤ c.uart.incoming.length) :
    c.update millis =
      if byteAt (c.uart.incoming.take 9) 0 ≠ 0xFF ∨ byteAt (c.uart.incoming.take 9) 1 ≠ 0x86 ∨
          byteAt (c.uart.incoming.take 9) 8 ≠ mhz19_checksum (c.uart.incoming.take 9) then
        { c with
          uart := { uart_after_send c.uart MHZ19_COMMAND_GET_PPM with
                    rx := c.uart.incoming.drop 9
                    read_array_calls := c.uart.read_array_calls + 1 }
          status_warning := true }
      else
        publish_readings
          { c with
            uart := { uart_after_send c.uart MHZ19_COMMAND_GET_PPM with
                      rx := c.uart.incoming.drop 9
                      read_array_calls := c.uart.read_array_calls + 1 }
            status_warning := false }
          ((((byteAt (c.uart.incoming.take 9) 2 % 65536) <<< 8) |||
            byteAt (c.uart.incoming.take 9) 3) % 65536)
          ((byteAt (c.uart.incoming.take 9) 4 : Int) - 40) := by
  unfold update
  simp only [hgate, ↓reduceIte, mhz19_write_command_some c MHZ19_COMMAND_GET_PPM _ rfl, h9,
    Option.getD_some, Bool.not_true, Bool.false_eq_true, status_set_warning,
    status_clear_warning]
  split_ifs <;> first | rfl | (exfalso; tauto)

theorem publish_readings_uart (c : MHZ19Component) (ppm : Nat) (temp : Int) :
    (c.publish_readings ppm temp).uart = c.uart := by
  obtain ⟨uart, warning, temperature, co2, abc, warmup, range⟩ := c
  cases co2 <;> cases temperature <;> rfl

theorem publish_readings_status_warning (c : MHZ19Component) (ppm : Nat) (temp : Int) :
    (c.publish_readings ppm temp).status_warning = c.status_warning := by
  obtain ⟨uart, warning, temperature, co2, abc, warmup, range⟩ := c
  cases co2 <;> cases temperature <;> rfl

theorem publish_readings_co2 (c : MHZ19Component) (ppm : Nat) (temp : Int) :
    (c.publish_readings ppm temp).co2_sensor_ =
      c.co2_sensor_.map (fun s => s.publish_state (ppm : Int)) := by
  obtain ⟨uart, warning, temperature, co2, abc, warmup, range⟩ := c
  cases co2 <;> cases temperature <;> rfl

theorem publish_readings_temperature (c : MHZ19Component) (ppm : Nat) (temp : Int) :
    (c.publish_readings ppm temp).temperature_sensor_ =
      c.temperature_sensor_.map (fun s => s.publish_state temp) := by
  obtain ⟨uart, warning, temperature, co2, abc, warmup, range⟩ := c
  cases co2 <;> cases temperature <;> rfl

/-- With the gate open, whatever the exchange yields, `update` has written the
get-reading frame and attempted one 9-byte read. -/
theorem update_uart_gate_open (c : MHZ19Component) (millis : Nat)
    (hgate : ¬ (millis % 2 ^ 32 < c.warmup_seconds_ * 1000 % 2 ^ 32)) :
    (c.update millis).uart.tx =
        c.uart.tx ++ MHZ19_COMMAND_GET_PPM ++ [mhz19_checksum MHZ19_COMMAND_GET_PPM] ∧
      (c.update millis).uart.read_array_calls = c.uart.read_array_calls + 1 ∧
      (c.update millis).uart.unflushed = 0 := by
  by_cases h9 : 9 ≤ c.uart.incoming.length
  · rw [update_of_long_reply c millis hgate h9]
    split_ifs
    · exact ⟨rfl, rfl, rfl⟩
    · rw [publish_readings_uart]
      exact ⟨rfl, rfl, rfl⟩
  · rw [update_of_short_reply c millis hgate (by omega)]
    exact ⟨rfl, rfl, rfl⟩

/-- The transport once a frame was sent from a state with stale input: as
`uart_after_send`, for a command buffer of any length. -/
theorem write_command_drained_none (c : MHZ19Component) (stale command : List Nat) :
    mhz19_write_command_ { c with uart := { c.uart with rx := stale } } command none =
      (true, none,
        { c with uart := { c.uart with
                            rx := c.uart.incoming
                            tx := c.uart.tx ++ command.take MHZ19_REQUEST_LENGTH ++
                              [mhz19_checksum command]
                            unflushed := 0
                            incoming := [] } }) := by
  simp [mhz19_write_command_, empty_rx_buffer_eq, UARTDevice.write_array,
    UARTDevice.write_byte, UARTDevice.flush]

theorem write_command_drained_some (c : MHZ19Component) (stale command buf : List Nat) :
    mhz19_write_command_ { c with uart := { c.uart with rx := stale } } command (some buf) =
      if MHZ19_RESPONSE_LENGTH ≤ c.uart.incoming.length then
        (true, some (c.uart.incoming.take MHZ19_RESPONSE_LENGTH),
          { c with uart := { c.uart with
                              rx := c.uart.incoming.drop MHZ19_RESPONSE_LENGTH
                              tx := c.uart.tx ++ command.take MHZ19_REQUEST_LENGTH ++
                                [mhz19_checksum command]
                              unflushed := 0
                              incoming := []
                              read_array_calls := c.uart.read_array_calls + 1 } })
      else
        (false, some buf,
          { c with uart := { c.uart with
                              rx := c.uart.incoming
                              tx := c.uart.tx ++ command.take MHZ19_REQUEST_LENGTH ++
                                [mhz19_checksum command]
                              unflushed := 0
                              incoming := []
                              read_array_calls := c.uart.read_array_calls + 1 } }) := by
  simp only [mhz19_write_command_, empty_rx_buffer_eq, UARTDevice.write_array,
    UARTDevice.write_byte, UARTDevice.flush, UARTDevice.read_array, ↓reduceIte,
    List.nil_append, Nat.add_zero]
  split <;> simp

theorem write_command_none_tx (c : MHZ19Component) (command : List Nat)
    (hlen : command.length = 8) :
    (c.mhz19_write_command_ command none).2.2.uart.tx =
      c.uart.tx ++ (command ++ [mhz19_checksum command]) := by
  rw [mhz19_write_command_none c command hlen]
  simp only [uart_after_send, List.append_assoc]

theorem sendsOneCommandFrame_of_append {c c2 : MHZ19Component} {f : List Nat}
    (h : c2.uart.tx = c.uart.tx ++ f) (hf : IsCommandFrame f) : SendsOneCommandFrame c c2 := by
  have ht : transmitted c c2 = f := by
    unfold transmitted
    rw [h, List.drop_left]
  unfold SendsOneCommandFrame
  rw [ht]
  exact ⟨h, hf⟩

/-- A poll that read a well-formed 9-byte reply: the warning is cleared and the decoded
values are handed to `publish_readings`. -/
theorem update_of_valid_reply (c : MHZ19Component) (millis : Nat) (r : List Nat)
    (hgate : ¬ (millis % 2 ^ 32 < c.warmup_seconds_ * 1000 % 2 ^ 32))
    (hlen : r.length = 9) (hbytes : IsBytes r)
    (h0 : byteAt r 0 = 0xFF) (h1 : byteAt r 1 = 0x86) (h8 : byteAt r 8 = mhz19_checksum r)
    (hreply : c.uart.incoming = r) :
    c.update millis =
      publish_readings
        { c with
          uart := { uart_after_send c.uart MHZ19_COMMAND_GET_PPM with
                    rx := []
                    read_array_calls := c.uart.read_array_calls + 1 }
          status_warning := false }
        (256 * byteAt r 2 + byteAt r 3) ((byteAt r 4 : Int) - 40) := by
  have hok : ¬ (byteAt r 0 ≠ 0xFF ∨ byteAt r 1 ≠ 0x86 ∨ byteAt r 8 ≠ mhz19_checksum r) := by
    rw [h0, h1, ← h8]; simp
  rw [update_of_reply c millis r hgate hlen hreply, if_neg hok,
    ppm_decode (byteAt r 2) (byteAt r 3) (byteAt_lt hbytes 2) (byteAt_lt hbytes 3)]

/-- A response that differs in exactly one byte from an accepted response fails the
preamble check or the checksum check. -/
theorem corrupted_response_rejected (r r2 : List Nat) (hlen : r.length = 9)
    (hlen2 : r2.length = 9) (hb : IsBytes r) (hb2 : IsBytes r2)
    (h0 : byteAt r 0 = 0xFF) (h1 : byteAt r 1 = 0x86) (h8 : byteAt r 8 = mhz19_checksum r)
    (i : Nat) (hi : i < 9) (hdiff : byteAt r2 i ≠ byteAt r i)
    (hsame : ∀ j, j < 9 → j ≠ i → byteAt r2 j = byteAt r j) :
    byteAt r2 0 ≠ 0xFF ∨ byteAt r2 1 ≠ 0x86 ∨ byteAt r2 8 ≠ mhz19_checksum r2 := by
  obtain ⟨a0, a1, a2, a3, a4, a5, a6, a7, a8, rfl⟩ := length_eq_nine hlen
  obtain ⟨b0, b1, b2, b3, b4, b5, b6, b7, b8, rfl⟩ := length_eq_nine hlen2
  have s0 := hsame 0 (by omega)
  have s1 := hsame 1 (by omega)
  have s2 := hsame 2 (by omega)
  have s3 := hsame 3 (by omega)
  have s4 := hsame 4 (by omega)
  have s5 := hsame 5 (by omega)
  have s6 := hsame 6 (by omega)
  have s7 := hsame 7 (by omega)
  have s8 := hsame 8 (by omega)
  clear hsame hlen hlen2
  simp only [mhz19_checksum, mhz19_checksum_sum_eq] at h8 ⊢
  simp only [IsBytes, List.mem_cons, List.mem_singleton, forall_eq_or_imp, forall_eq,
    List.not_mem_nil, false_implies, implies_true, and_true] at hb hb2
  interval_cases i <;>
    simp only [byteAt, List.getD_cons_zero, List.getD_cons_succ, ne_eq, OfNat.ofNat_ne_zero,
      OfNat.zero_ne_ofNat, not_false_eq_true, not_true_eq_false, forall_const, false_implies,
      Nat.reduceEqDiff, OfNat.ofNat_ne_one, OfNat.one_ne_ofNat, one_ne_zero, zero_ne_one]
      at h0 h1 h8 hdiff s0 s1 s2 s3 s4 s5 s6 s7 s8 ⊢ <;>
    omega

/-- While the (non-wrapping) warm-up window has not elapsed, `update` only raises the
warning: the transport and the sinks are left as they were. -/
theorem update_during_warmup (c : MHZ19Component) (millis : Nat) (hms : millis < 2 ^ 32)
    (hfit : c.warmup_seconds_ * 1000 < 2 ^ 32) (hearly : millis < c.warmup_seconds_ * 1000) :
    c.update millis = c.status_set_warning := by
  unfold update
  rw [Nat.mod_eq_of_lt hms, Nat.mod_eq_of_lt hfit]
  simp only [hearly, ↓reduceIte]

end MHZ19Component

/-! ## Checked properties -/

/-- C1: for every byte sequence `B` of length 8, `mhz19_checksum B` is a single byte
`c` with `(B[1] + B[2] + ... + B[7] + c) mod 256 = 0`; `(B.drop 1).sum` is
`B[1] + ... + B[7]` for a frame of 8 bytes. -/
theorem checksum_complements_sum (B : List Nat) (hlen : B.length = 8) :
    mhz19_checksum B < 256 ∧ ((B.drop 1).sum + mhz19_checksum B) % 256 = 0 := by
  have hs := mhz19_checksum_sum_drop hlen
  refine ⟨mhz19_checksum_lt B, ?_⟩
  unfold mhz19_checksum
  omega

theorem checksum_complements_sum_witness :
    ([0xFF, 0x86, 0x03, 0xE8, 0x28, 0x00, 0x00, 0x07] : List Nat).length = 8 ∧
      mhz19_checksum [0xFF, 0x86, 0x03, 0xE8, 0x28, 0x00, 0x00, 0x07] < 256 ∧
      ((([0xFF, 0x86, 0x03, 0xE8, 0x28, 0x00, 0x00, 0x07] : List Nat).drop 1).sum +
        mhz19_checksum [0xFF, 0x86, 0x03, 0xE8, 0x28, 0x00, 0x00, 0x07]) % 256 = 0 :=
  ⟨by decide,
    checksum_complements_sum [0xFF, 0x86, 0x03, 0xE8, 0x28, 0x00, 0x00, 0x07] (by decide)⟩

/-- C2: on every 8-byte frame `mhz19_checksum` equals the reference value
`(0xFF - ((B[1]+...+B[7]) mod 256) + 1) mod 256`; it reads bytes 1..7 only, so two
frames that agree on bytes 1..7 have the same checksum whatever their byte 0; and
the get-reading command `[0xFF,0x01,0x86,0,0,0,0,0]` has checksum `0x79`. -/
theorem checksum_eq_reference (B : List Nat) (hlen : B.length = 8) :
    mhz19_checksum B = computeChecksum_spec B ∧
      (∀ b0 : Nat, mhz19_checksum (B.set 0 b0) = mhz19_checksum B) ∧
      (∀ B2 : List Nat, B2.length = 8 → B2.drop 1 = B.drop 1 →
        mhz19_checksum B2 = mhz19_checksum B) ∧
      mhz19_checksum [0xFF, 0x01, 0x86, 0x00, 0x00, 0x00, 0x00, 0x00] = 0x79 ∧
      mhz19_checksum MHZ19_COMMAND_GET_PPM = 0x79 := by
  have key : ∀ C : List Nat, C.length = 8 → mhz19_checksum C = computeChecksum_spec C := by
    intro C hC
    unfold mhz19_checksum computeChecksum_spec
    rw [mhz19_checksum_sum_drop hC]
  refine ⟨key B hlen, ?_, ?_, by decide, by decide⟩
  · intro b0
    rw [key B hlen, key _ (by simpa using hlen)]
    obtain ⟨c0, c1, c2, c3, c4, c5, c6, c7, rfl⟩ := length_eq_eight hlen
    rfl
  · intro B2 h2 hd
    rw [key B hlen, key B2 h2]
    unfold computeChecksum_spec
    rw [hd]

theorem checksum_eq_reference_witness :
    ([0x00, 0x01, 0x99, 0x00, 0x00, 0x00, 0x13, 0x88] : List Nat).length = 8 ∧
      mhz19_checksum [0x00, 0x01, 0x99, 0x00, 0x00, 0x00, 0x13, 0x88] =
        computeChecksum_spec [0x00, 0x01, 0x99, 0x00, 0x00, 0x00, 0x13, 0x88] ∧
      mhz19_checksum [0x00, 0x01, 0x99, 0x00, 0x00, 0x00, 0x13, 0x88] = 0xCB ∧
      mhz19_checksum (([0x00, 0x01, 0x99, 0x00, 0x00, 0x00, 0x13, 0x88] : List Nat).set 0 0xFF) =
        mhz19_checksum [0x00, 0x01, 0x99, 0x00, 0x00, 0x00, 0x13, 0x88] :=
  ⟨by decide,
    (checksum_eq_reference [0x00, 0x01, 0x99, 0x00, 0x00, 0x00, 0x13, 0x88] (by decide)).1,
    by decide,
    (checksum_eq_reference [0x00, 0x01, 0x99, 0x00, 0x00, 0x00, 0x13, 0x88] (by decide)).2.1 0xFF⟩

/-- C3: for every 9-byte response `r` with `r[0] = 0xFF`, `r[1] = 0x86` and
`r[8] = mhz19_checksum r`, if the elapsed milliseconds are at least the configured
warm-up seconds times 1000 and the transport delivers `r` as the reply, `update`
clears the warning status and publishes `256 * r[2] + r[3]` to the CO2 sink and
`r[4] - 40` to the temperature sink, each when configured; for
`r = [0xFF,0x86,0x03,0xE8,0x28,0,0,0,0x67]` these are 1000 and 0. -/
theorem update_publishes_valid_response (c : MHZ19Component) (millis : Nat) (r : List Nat)
    (hlen : r.length = 9) (hbytes : IsBytes r)
    (h0 : byteAt r 0 = 0xFF) (h1 : byteAt r 1 = 0x86) (h8 : byteAt r 8 = mhz19_checksum r)
    (hms : millis < 2 ^ 32) (hwarm : c.warmup_seconds_ * 1000 ≤ millis)
    (hreply : c.uart.incoming = r) :
    (c.update millis).status_warning = false ∧
      (c.update millis).co2_sensor_ =
        c.co2_sensor_.map
          (fun s => s.publish_state ((256 * byteAt r 2 + byteAt r 3 : Nat) : Int)) ∧
      (c.update millis).temperature_sensor_ =
        c.temperature_sensor_.map (fun s => s.publish_state ((byteAt r 4 : Int) - 40)) ∧
      (r = [0xFF, 0x86, 0x03, 0xE8, 0x28, 0x00, 0x00, 0x00, 0x67] →
        (c.update millis).co2_sensor_ = c.co2_sensor_.map (fun s => s.publish_state 1000) ∧
        (c.update millis).temperature_sensor_ =
          c.temperature_sensor_.map (fun s => s.publish_state 0)) := by
  have hgate := MHZ19Component.gate_open_of_elapsed c.warmup_seconds_ millis hms hwarm
  have hppm := ppm_decode (byteAt r 2) (byteAt r 3) (byteAt_lt hbytes 2) (byteAt_lt hbytes 3)
  have hok : ¬ (byteAt r 0 ≠ 0xFF ∨ byteAt r 1 ≠ 0x86 ∨ byteAt r 8 ≠ mhz19_checksum r) := by
    rw [h0, h1, ← h8]; simp
  have hupd := MHZ19Component.update_of_reply c millis r hgate hlen hreply
  rw [if_neg hok, hppm] at hupd
  have hw : (c.update millis).status_warning = false := by
    rw [hupd]; unfold MHZ19Component.publish_readings
    cases c.co2_sensor_ <;> cases c.temperature_sensor_ <;> rfl
  have hco2 : (c.update millis).co2_sensor_ =
      c.co2_sensor_.map
        (fun s => s.publish_state ((256 * byteAt r 2 + byteAt r 3 : Nat) : Int)) := by
    rw [hupd]; unfold MHZ19Component.publish_readings
    cases c.co2_sensor_ <;> cases c.temperature_sensor_ <;> rfl
  have htemp : (c.update millis).temperature_sensor_ =
      c.temperature_sensor_.map (fun s => s.publish_state ((byteAt r 4 : Int) - 40)) := by
    rw [hupd]; unfold MHZ19Component.publish_readings
    cases c.co2_sensor_ <;> cases c.temperature_sensor_ <;> rfl
  refine ⟨hw, hco2, htemp, ?_⟩
  intro hr
  rw [hco2, htemp, hr]
  exact ⟨rfl, rfl⟩

theorem update_publishes_valid_response_witness :
    ((sample_component 75 sample_response).update 75000).status_warning = false ∧
      ((sample_component 75 sample_response).update 75000).co2_sensor_ =
        some { published := [1000] } ∧
      ((sample_component 75 sample_response).update 75000).temperature_sensor_ =
        some { published := [0] } := by
  have h := update_publishes_valid_response (sample_component 75 sample_response) 75000
    sample_response (by decide) (by decide) (by decide) (by decide) (by decide) (by decide)
    (by decide) rfl
  exact ⟨h.1, h.2.2.2 rfl⟩

/-- C4: for every 9-byte response `r` with a valid preamble (`r[0] = 0xFF`,
`r[1] = 0x86`) whose byte 8 differs from `mhz19_checksum r`, `update` after warm-up
sets the warning status and publishes nothing to either sink. -/
theorem update_rejects_bad_checksum (c : MHZ19Component) (millis : Nat) (r : List Nat)
    (hlen : r.length = 9) (_h0 : byteAt r 0 = 0xFF) (_h1 : byteAt r 1 = 0x86)
    (h8 : byteAt r 8 ≠ mhz19_checksum r)
    (hms : millis < 2 ^ 32) (hwarm : c.warmup_seconds_ * 1000 ≤ millis)
    (hreply : c.uart.incoming = r) :
    (c.update millis).status_warning = true ∧
      (c.update millis).co2_sensor_ = c.co2_sensor_ ∧
      (c.update millis).temperature_sensor_ = c.temperature_sensor_ := by
  have hgate := MHZ19Component.gate_open_of_elapsed c.warmup_seconds_ millis hms hwarm
  have hbad : byteAt r 0 ≠ 0xFF ∨ byteAt r 1 ≠ 0x86 ∨ byteAt r 8 ≠ mhz19_checksum r :=
    Or.inr (Or.inr h8)
  have hupd := MHZ19Component.update_of_reply c millis r hgate hlen hreply
  rw [if_pos hbad] at hupd
  rw [hupd]
  exact ⟨rfl, rfl, rfl⟩

theorem update_rejects_bad_checksum_witness :
    ((sample_component 75 [0xFF, 0x86, 0x03, 0xE8, 0x28, 0x00, 0x00, 0x00, 0x68]).update
        75000).status_warning = true ∧
      ((sample_component 75 [0xFF, 0x86, 0x03, 0xE8, 0x28, 0x00, 0x00, 0x00, 0x68]).update
        75000).co2_sensor_ = some { published := [] } ∧
      ((sample_component 75 [0xFF, 0x86, 0x03, 0xE8, 0x28, 0x00, 0x00, 0x00, 0x68]).update
        75000).temperature_sensor_ = some { published := [] } :=
  update_rejects_bad_checksum
    (sample_component 75 [0xFF, 0x86, 0x03, 0xE8, 0x28, 0x00, 0x00, 0x00, 0x68]) 75000
    [0xFF, 0x86, 0x03, 0xE8, 0x28, 0x00, 0x00, 0x00, 0x68]
    (by decide) (by decide) (by decide) (by decide) (by decide) (by decide) rfl

/-- C5: for every 9-byte response `r` with `r[0] ≠ 0xFF` or `r[1] ≠ 0x86`, `update`
after warm-up sets the warning status and publishes nothing to either sink, whether
or not `r[8]` equals `mhz19_checksum r` (no assumption is made on byte 8). -/
theorem update_rejects_bad_preamble (c : MHZ19Component) (millis : Nat) (r : List Nat)
    (hlen : r.length = 9) (hpre : byteAt r 0 ≠ 0xFF ∨ byteAt r 1 ≠ 0x86)
    (hms : millis < 2 ^ 32) (hwarm : c.warmup_seconds_ * 1000 ≤ millis)
    (hreply : c.uart.incoming = r) :
    (c.update millis).status_warning = true ∧
      (c.update millis).co2_sensor_ = c.co2_sensor_ ∧
      (c.update millis).temperature_sensor_ = c.temperature_sensor_ := by
  have hgate := MHZ19Component.gate_open_of_elapsed c.warmup_seconds_ millis hms hwarm
  have hbad : byteAt r 0 ≠ 0xFF ∨ byteAt r 1 ≠ 0x86 ∨ byteAt r 8 ≠ mhz19_checksum r := by
    rcases hpre with h | h
    · exact Or.inl h
    · exact Or.inr (Or.inl h)
  have hupd := MHZ19Component.update_of_reply c millis r hgate hlen hreply
  rw [if_pos hbad] at hupd
  rw [hupd]
  exact ⟨rfl, rfl, rfl⟩

theorem update_rejects_bad_preamble_witness :
    byteAt [0xFF, 0x87, 0x03, 0xE8, 0x28, 0x00, 0x00, 0x00, 0x66] 8 =
        mhz19_checksum [0xFF, 0x87, 0x03, 0xE8, 0x28, 0x00, 0x00, 0x00, 0x66] ∧
      ((sample_component 75 [0xFF, 0x87, 0x03, 0xE8, 0x28, 0x00, 0x00, 0x00, 0x66]).update
        75000).status_warning = true ∧
      ((sample_component 75 [0xFF, 0x87, 0x03, 0xE8, 0x28, 0x00, 0x00, 0x00, 0x66]).update
        75000).co2_sensor_ = some { published := [] } ∧
      ((sample_component 75 [0xFF, 0x87, 0x03, 0xE8, 0x28, 0x00, 0x00, 0x00, 0x66]).update
        75000).temperature_sensor_ = some { published := [] } :=
  ⟨by decide,
    update_rejects_bad_preamble
      (sample_component 75 [0xFF, 0x87, 0x03, 0xE8, 0x28, 0x00, 0x00, 0x00, 0x66]) 75000
      [0xFF, 0x87, 0x03, 0xE8, 0x28, 0x00, 0x00, 0x00, 0x66]
      (by decide) (by decide) (by decide) (by decide) rfl⟩

/-- C6 (fails on the code): with `warmup_seconds_ = 4294968` the product
`warmup_seconds_ * 1000 = 4294968000` wraps to 704 in the `uint32_t` of line 38, so at
`millis() = 1000`, which is below the warm-up duration as exact integers, `update`
does not take the warm-up exit: it sends the get-reading frame, clears the warning and
publishes the reading it gets. -/
theorem update_warmup_product_wraps :
    (1000 : Nat) < 2 ^ 32 ∧ (4294968 : Nat) < 2 ^ 32 ∧
      1000 < (sample_component 4294968 sample_response).warmup_seconds_ * 1000 ∧
      (sample_component 4294968 sample_response).warmup_seconds_ * 1000 % 2 ^ 32 = 704 ∧
      ((sample_component 4294968 sample_response).update 1000).uart.tx =
        [0xFF, 0x01, 0x86, 0x00, 0x00, 0x00, 0x00, 0x00, 0x79] ∧
      ((sample_component 4294968 sample_response).update 1000).status_warning = false ∧
      ((sample_component 4294968 sample_response).update 1000).co2_sensor_ =
        some { published := [1000] } ∧
      ((sample_component 4294968 sample_response).update 1000).temperature_sensor_ =
        some { published := [0] } := by
  have h := MHZ19Component.update_of_reply (sample_component 4294968 sample_response) 1000
    sample_response (by decide) rfl rfl
  rw [h]
  refine ⟨by decide, by decide, by decide, by decide, ?_, ?_, ?_, ?_⟩ <;> decide

/-- C7: for every 8-byte command frame and every component (hence transport) state,
`mhz19_write_command_` appends exactly 9 bytes to the transport's output, the frame's
bytes 0..7 in order followed by `mhz19_checksum` of the frame, leaves none of them
unflushed, and with no response buffer (`nullptr`) returns `true`. -/
theorem write_command_appends_frame (c : MHZ19Component) (command : List Nat)
    (response : Option (List Nat)) (hlen : command.length = 8) :
    (c.mhz19_write_command_ command response).2.2.uart.tx =
        c.uart.tx ++ command ++ [mhz19_checksum command] ∧
      (c.mhz19_write_command_ command response).2.2.uart.tx.length = c.uart.tx.length + 9 ∧
      (c.mhz19_write_command_ command response).2.2.uart.unflushed = 0 ∧
      (c.mhz19_write_command_ command none).1 = true := by
  have hnone := MHZ19Component.mhz19_write_command_none c command hlen
  have htx : (c.mhz19_write_command_ command response).2.2.uart.tx =
      c.uart.tx ++ command ++ [mhz19_checksum command] := by
    cases response with
    | none => rw [hnone]; rfl
    | some buf =>
      rw [MHZ19Component.mhz19_write_command_some c command buf hlen]
      split <;> rfl
  refine ⟨htx, ?_, ?_, ?_⟩
  · rw [htx]; simp [hlen]
  · cases response with
    | none => rw [hnone]; rfl
    | some buf =>
      rw [MHZ19Component.mhz19_write_command_some c command buf hlen]
      split <;> rfl
  · rw [hnone]

theorem write_command_appends_frame_witness :
    MHZ19_COMMAND_CALIBRATE_ZERO.length = 8 ∧
      ((sample_component 75 []).mhz19_write_command_ MHZ19_COMMAND_CALIBRATE_ZERO
          none).2.2.uart.tx =
        (sample_component 75 []).uart.tx ++ MHZ19_COMMAND_CALIBRATE_ZERO ++
          [mhz19_checksum MHZ19_COMMAND_CALIBRATE_ZERO] ∧
      ((sample_component 75 []).mhz19_write_command_ MHZ19_COMMAND_CALIBRATE_ZERO
          none).1 = true :=
  ⟨by decide,
    (write_command_appends_frame (sample_component 75 []) MHZ19_COMMAND_CALIBRATE_ZERO none
      (by decide)).1,
    (write_command_appends_frame (sample_component 75 []) MHZ19_COMMAND_CALIBRATE_ZERO none
      (by decide)).2.2.2⟩

/-- C8: for each non-default detection range, `detection_range` transmits exactly
the 9 bytes formed by that range's fixed 8-byte payload followed by its checksum; for
the 0-5000ppm range they are `[0xFF,0x01,0x99,0x00,0x00,0x00,0x13,0x88,0xCB]`. -/
theorem detection_range_transmits_frame (c : MHZ19Component) :
    ((c.detection_range .MHZ19_DETECTION_RANGE_0_2000PPM).uart.tx =
        c.uart.tx ++ (MHZ19_COMMAND_DETECTION_RANGE_0_2000PPM ++
          [mhz19_checksum MHZ19_COMMAND_DETECTION_RANGE_0_2000PPM])) ∧
      ((c.detection_range .MHZ19_DETECTION_RANGE_0_5000PPM).uart.tx =
        c.uart.tx ++ (MHZ19_COMMAND_DETECTION_RANGE_0_5000PPM ++
          [mhz19_checksum MHZ19_COMMAND_DETECTION_RANGE_0_5000PPM])) ∧
      ((c.detection_range .MHZ19_DETECTION_RANGE_0_10000PPM).uart.tx =
        c.uart.tx ++ (MHZ19_COMMAND_DETECTION_RANGE_0_10000PPM ++
          [mhz19_checksum MHZ19_COMMAND_DETECTION_RANGE_0_10000PPM])) ∧
      (MHZ19_COMMAND_DETECTION_RANGE_0_2000PPM ++
          [mhz19_checksum MHZ19_COMMAND_DETECTION_RANGE_0_2000PPM]).length = 9 ∧
      (MHZ19_COMMAND_DETECTION_RANGE_0_5000PPM ++
          [mhz19_checksum MHZ19_COMMAND_DETECTION_RANGE_0_5000PPM]).length = 9 ∧
      (MHZ19_COMMAND_DETECTION_RANGE_0_10000PPM ++
          [mhz19_checksum MHZ19_COMMAND_DETECTION_RANGE_0_10000PPM]).length = 9 ∧
      (c.detection_range .MHZ19_DETECTION_RANGE_0_5000PPM).uart.tx =
        c.uart.tx ++ [0xFF, 0x01, 0x99, 0x00, 0x00, 0x00, 0x13, 0x88, 0xCB] := by
  have h2 := MHZ19Component.mhz19_write_command_none c
    MHZ19_COMMAND_DETECTION_RANGE_0_2000PPM rfl
  have h5 := MHZ19Component.mhz19_write_command_none c
    MHZ19_COMMAND_DETECTION_RANGE_0_5000PPM rfl
  have h10 := MHZ19Component.mhz19_write_command_none c
    MHZ19_COMMAND_DETECTION_RANGE_0_10000PPM rfl
  have e2 : (c.detection_range .MHZ19_DETECTION_RANGE_0_2000PPM).uart.tx =
      c.uart.tx ++ (MHZ19_COMMAND_DETECTION_RANGE_0_2000PPM ++
        [mhz19_checksum MHZ19_COMMAND_DETECTION_RANGE_0_2000PPM]) := by
    simp only [MHZ19Component.detection_range, h2, uart_after_send, List.append_assoc]
  have e5 : (c.detection_range .MHZ19_DETECTION_RANGE_0_5000PPM).uart.tx =
      c.uart.tx ++ (MHZ19_COMMAND_DETECTION_RANGE_0_5000PPM ++
        [mhz19_checksum MHZ19_COMMAND_DETECTION_RANGE_0_5000PPM]) := by
    simp only [MHZ19Component.detection_range, h5, uart_after_send, List.append_assoc]
  have e10 : (c.detection_range .MHZ19_DETECTION_RANGE_0_10000PPM).uart.tx =
      c.uart.tx ++ (MHZ19_COMMAND_DETECTION_RANGE_0_10000PPM ++
        [mhz19_checksum MHZ19_COMMAND_DETECTION_RANGE_0_10000PPM]) := by
    simp only [MHZ19Component.detection_range, h10, uart_after_send, List.append_assoc]
  refine ⟨e2, e5, e10, by decide, by decide, by decide, ?_⟩
  rw [e5]
  have hframe : MHZ19_COMMAND_DETECTION_RANGE_0_5000PPM ++
      [mhz19_checksum MHZ19_COMMAND_DETECTION_RANGE_0_5000PPM] =
      [0xFF, 0x01, 0x99, 0x00, 0x00, 0x00, 0x13, 0x88, 0xCB] := by decide
  rw [hframe]

/-- C9: `detection_range(MHZ19_DETECTION_RANGE_DEFAULT)` is a no-op: the component is
left as it was, so no byte is written, no buffered input byte is read or discarded,
and the warning status and the sinks are unchanged. -/
theorem detection_range_default_noop (c : MHZ19Component) :
    c.detection_range .MHZ19_DETECTION_RANGE_DEFAULT = c ∧
      (c.detection_range .MHZ19_DETECTION_RANGE_DEFAULT).uart.tx = c.uart.tx ∧
      (c.detection_range .MHZ19_DETECTION_RANGE_DEFAULT).uart.rx = c.uart.rx ∧
      (c.detection_range .MHZ19_DETECTION_RANGE_DEFAULT).uart.read_array_calls =
        c.uart.read_array_calls ∧
      (c.detection_range .MHZ19_DETECTION_RANGE_DEFAULT).status_warning = c.status_warning ∧
      (c.detection_range .MHZ19_DETECTION_RANGE_DEFAULT).co2_sensor_ = c.co2_sensor_ ∧
      (c.detection_range .MHZ19_DETECTION_RANGE_DEFAULT).temperature_sensor_ =
        c.temperature_sensor_ :=
  ⟨rfl, rfl, rfl, rfl, rfl, rfl, rfl⟩

/-- C10: `setup` transmits exactly one frame, the ABC-enable command
`[0xFF,0x01,0x79,0xA0,0,0,0,0]` plus its checksum, when the boot calibration policy is
enabled; exactly one frame, the ABC-disable command `[0xFF,0x01,0x79,0x00,0,0,0,0]`
plus its checksum, when it is disabled; and leaves the transport (and the whole
component) untouched for any other policy value. -/
theorem setup_sends_boot_policy_frame (c : MHZ19Component) :
    (c.abc_boot_logic_ = .MHZ19_ABC_ENABLED →
        c.setup.uart.tx =
          c.uart.tx ++ ([0xFF, 0x01, 0x79, 0xA0, 0x00, 0x00, 0x00, 0x00] ++
            [mhz19_checksum [0xFF, 0x01, 0x79, 0xA0, 0x00, 0x00, 0x00, 0x00]]) ∧
        c.setup.uart.tx.length = c.uart.tx.length + 9) ∧
      (c.abc_boot_logic_ = .MHZ19_ABC_DISABLED →
        c.setup.uart.tx =
          c.uart.tx ++ ([0xFF, 0x01, 0x79, 0x00, 0x00, 0x00, 0x00, 0x00] ++
            [mhz19_checksum [0xFF, 0x01, 0x79, 0x00, 0x00, 0x00, 0x00, 0x00]]) ∧
        c.setup.uart.tx.length = c.uart.tx.length + 9) ∧
      (c.abc_boot_logic_ ≠ .MHZ19_ABC_ENABLED → c.abc_boot_logic_ ≠ .MHZ19_ABC_DISABLED →
        c.setup = c ∧ c.setup.uart.tx = c.uart.tx) := by
  have he := MHZ19Component.mhz19_write_command_none c MHZ19_COMMAND_ABC_ENABLE rfl
  have hd := MHZ19Component.mhz19_write_command_none c MHZ19_COMMAND_ABC_DISABLE rfl
  refine ⟨?_, ?_, ?_⟩
  · intro h
    have htx : c.setup.uart.tx = c.uart.tx ++ ([0xFF, 0x01, 0x79, 0xA0, 0x00, 0x00, 0x00, 0x00] ++
        [mhz19_checksum [0xFF, 0x01, 0x79, 0xA0, 0x00, 0x00, 0x00, 0x00]]) := by
      simp only [MHZ19Component.setup, h, ↓reduceIte, MHZ19Component.abc_enable, he,
        uart_after_send, List.append_assoc]
      rfl
    refine ⟨htx, ?_⟩
    rw [htx]; simp
  · intro h
    have htx : c.setup.uart.tx = c.uart.tx ++ ([0xFF, 0x01, 0x79, 0x00, 0x00, 0x00, 0x00, 0x00] ++
        [mhz19_checksum [0xFF, 0x01, 0x79, 0x00, 0x00, 0x00, 0x00, 0x00]]) := by
      simp only [MHZ19Component.setup, h, ↓reduceIte, MHZ19Component.abc_disable, hd,
        uart_after_send, List.append_assoc]
      rfl
    refine ⟨htx, ?_⟩
    rw [htx]; simp
  · intro h1 h2
    have : c.setup = c := by
      simp only [MHZ19Component.setup, h1, h2, ↓reduceIte]
    exact ⟨this, by rw [this]⟩

theorem setup_sends_boot_policy_frame_witness :
    ({ sample_component 75 [] with abc_boot_logic_ := .MHZ19_ABC_ENABLED }).setup.uart.tx =
        [0xFF, 0x01, 0x79, 0xA0, 0x00, 0x00, 0x00, 0x00, 0xE6] ∧
      ({ sample_component 75 [] with abc_boot_logic_ := .MHZ19_ABC_DISABLED }).setup.uart.tx =
        [0xFF, 0x01, 0x79, 0x00, 0x00, 0x00, 0x00, 0x00, 0x86] ∧
      (sample_component 75 []).setup = sample_component 75 [] :=
  ⟨((setup_sends_boot_policy_frame
      { sample_component 75 [] with abc_boot_logic_ := .MHZ19_ABC_ENABLED }).1 rfl).1,
    ((setup_sends_boot_policy_frame
      { sample_component 75 [] with abc_boot_logic_ := .MHZ19_ABC_DISABLED }).2.1 rfl).1,
    ((setup_sends_boot_policy_frame (sample_component 75 [])).2.2
      (by decide) (by decide)).1⟩

/-- C11: if, after the get-reading command is sent, fewer than 9 bytes become
available, the 9-byte read fails and `update` (after warm-up) sets the warning status
and publishes nothing to either sink. -/
theorem update_warns_on_short_read (c : MHZ19Component) (millis : Nat) (buf : List Nat)
    (hms : millis < 2 ^ 32) (hwarm : c.warmup_seconds_ * 1000 ≤ millis)
    (hshort : c.uart.incoming.length < 9) :
    (c.mhz19_write_command_ MHZ19_COMMAND_GET_PPM (some buf)).1 = false ∧
      (c.update millis).status_warning = true ∧
      (c.update millis).co2_sensor_ = c.co2_sensor_ ∧
      (c.update millis).temperature_sensor_ = c.temperature_sensor_ := by
  have hgate := MHZ19Component.gate_open_of_elapsed c.warmup_seconds_ millis hms hwarm
  have h9 : ¬ (9 ≤ c.uart.incoming.length) := by omega
  refine ⟨?_, ?_⟩
  · rw [MHZ19Component.mhz19_write_command_some c MHZ19_COMMAND_GET_PPM buf rfl, if_neg h9]
  · rw [MHZ19Component.update_of_short_reply c millis hgate hshort]
    exact ⟨rfl, rfl, rfl⟩

theorem update_warns_on_short_read_witness :
    ((sample_component 75 [0xFF, 0x86, 0x03, 0xE8]).update 75000).status_warning = true ∧
      ((sample_component 75 [0xFF, 0x86, 0x03, 0xE8]).update 75000).co2_sensor_ =
        some { published := [] } ∧
      ((sample_component 75 [0xFF, 0x86, 0x03, 0xE8]).update 75000).temperature_sensor_ =
        some { published := [] } :=
  (update_warns_on_short_read (sample_component 75 [0xFF, 0x86, 0x03, 0xE8]) 75000 []
    (by decide) (by decide) (by decide)).2

/-- C12 (drain-before-send): for every finite sequence of stale bytes buffered on the
input side before the call, the drain loop of `mhz19_write_command_` terminates with
the input buffer empty and everything else (the output included) untouched, and the
call writes no byte while an input byte is still buffered (`written_over_input` does not
move), so the frame goes out only once the buffer is empty.  The flag and the response
bytes it returns are then those of the peer's reply alone (`true` and the first 9 reply
bytes when at least 9 arrive, `false` otherwise), no stale byte is left in the input
buffer, and two runs that differ only in the stale bytes give the same flag, response
bytes and component, hence the same outcome of `update` (warning status, sinks, bytes
written). -/
theorem drain_before_send (c : MHZ19Component) (stale1 stale2 command buf : List Nat)
    (response : Option (List Nat)) (millis : Nat) :
    (MHZ19Component.empty_rx_buffer { c.uart with rx := stale1 }).rx = [] ∧
      (MHZ19Component.empty_rx_buffer { c.uart with rx := stale1 }).tx = c.uart.tx ∧
      MHZ19Component.mhz19_write_command_ { c with uart := { c.uart with rx := stale1 } }
          command response =
        MHZ19Component.mhz19_write_command_ { c with uart := { c.uart with rx := stale2 } }
          command response ∧
      (MHZ19Component.update { c with uart := { c.uart with rx := stale1 } }
          millis).status_warning =
        (MHZ19Component.update { c with uart := { c.uart with rx := stale2 } }
          millis).status_warning ∧
      (MHZ19Component.update { c with uart := { c.uart with rx := stale1 } }
          millis).co2_sensor_ =
        (MHZ19Component.update { c with uart := { c.uart with rx := stale2 } }
          millis).co2_sensor_ ∧
      (MHZ19Component.update { c with uart := { c.uart with rx := stale1 } }
          millis).temperature_sensor_ =
        (MHZ19Component.update { c with uart := { c.uart with rx := stale2 } }
          millis).temperature_sensor_ ∧
      (MHZ19Component.update { c with uart := { c.uart with rx := stale1 } }
          millis).uart.tx =
        (MHZ19Component.update { c with uart := { c.uart with rx := stale2 } }
          millis).uart.tx ∧
      MHZ19Component.empty_rx_buffer { c.uart with rx := stale1 } =
        { c.uart with rx := [] } ∧
      (MHZ19Component.mhz19_write_command_ { c with uart := { c.uart with rx := stale1 } }
          command response).2.2.uart.written_over_input = c.uart.written_over_input ∧
      (MHZ19Component.update { c with uart := { c.uart with rx := stale1 } }
          millis).uart.written_over_input = c.uart.written_over_input ∧
      (MHZ19Component.mhz19_write_command_ { c with uart := { c.uart with rx := stale1 } }
          command response).2.2.uart.tx =
        c.uart.tx ++ command.take MHZ19_REQUEST_LENGTH ++ [mhz19_checksum command] ∧
      (MHZ19Component.mhz19_write_command_ { c with uart := { c.uart with rx := stale1 } }
          command (some buf)).1 = decide (MHZ19_RESPONSE_LENGTH ≤ c.uart.incoming.length) ∧
      (MHZ19Component.mhz19_write_command_ { c with uart := { c.uart with rx := stale1 } }
          command (some buf)).2.1 =
        some (if MHZ19_RESPONSE_LENGTH ≤ c.uart.incoming.length then
          c.uart.incoming.take MHZ19_RESPONSE_LENGTH else buf) ∧
      (MHZ19Component.mhz19_write_command_ { c with uart := { c.uart with rx := stale1 } }
          command (some buf)).2.2.uart.rx =
        (if MHZ19_RESPONSE_LENGTH ≤ c.uart.incoming.length then
          c.uart.incoming.drop MHZ19_RESPONSE_LENGTH else c.uart.incoming) ∧
      (MHZ19Component.mhz19_write_command_ { c with uart := { c.uart with rx := stale1 } }
          command none).2.2.uart.rx = c.uart.incoming := by
  have hw : ∀ (cmd : List Nat) (resp : Option (List Nat)),
      MHZ19Component.mhz19_write_command_ { c with uart := { c.uart with rx := stale1 } }
          cmd resp =
        MHZ19Component.mhz19_write_command_ { c with uart := { c.uart with rx := stale2 } }
          cmd resp := by
    intro cmd resp
    simp only [MHZ19Component.mhz19_write_command_, MHZ19Component.empty_rx_buffer_eq]
  have hnone := MHZ19Component.write_command_drained_none c stale1 command
  have hsome := MHZ19Component.write_command_drained_some c stale1 command
  have hover : ∀ (cmd : List Nat) (resp : Option (List Nat)),
      (MHZ19Component.mhz19_write_command_ { c with uart := { c.uart with rx := stale1 } }
          cmd resp).2.2.uart.written_over_input = c.uart.written_over_input := by
    intro cmd resp
    cases resp with
    | none => rw [MHZ19Component.write_command_drained_none c stale1 cmd]
    | some b => rw [MHZ19Component.write_command_drained_some c stale1 cmd b]; split <;> rfl
  have hupd :
      (MHZ19Component.update { c with uart := { c.uart with rx := stale1 } }
          millis).status_warning =
        (MHZ19Component.update { c with uart := { c.uart with rx := stale2 } }
          millis).status_warning ∧
      (MHZ19Component.update { c with uart := { c.uart with rx := stale1 } }
          millis).co2_sensor_ =
        (MHZ19Component.update { c with uart := { c.uart with rx := stale2 } }
          millis).co2_sensor_ ∧
      (MHZ19Component.update { c with uart := { c.uart with rx := stale1 } }
          millis).temperature_sensor_ =
        (MHZ19Component.update { c with uart := { c.uart with rx := stale2 } }
          millis).temperature_sensor_ ∧
      (MHZ19Component.update { c with uart := { c.uart with rx := stale1 } }
          millis).uart.tx =
        (MHZ19Component.update { c with uart := { c.uart with rx := stale2 } }
          millis).uart.tx := by
    simp only [MHZ19Component.update, hw]
    split_ifs <;> exact ⟨rfl, rfl, rfl, rfl⟩
  refine ⟨?_, ?_, hw command response, hupd.1, hupd.2.1, hupd.2.2.1, hupd.2.2.2, ?_,
    hover command response, ?_, ?_, ?_, ?_, ?_, ?_⟩
  · rw [MHZ19Component.empty_rx_buffer_eq]
  · rw [MHZ19Component.empty_rx_buffer_eq]
  · rw [MHZ19Component.empty_rx_buffer_eq]
  · have h := hover MHZ19_COMMAND_GET_PPM (some (List.replicate MHZ19_RESPONSE_LENGTH 0))
    simp only [MHZ19Component.update]
    split_ifs
    · rfl
    · exact h
    · exact h
    · exact h
    · rw [MHZ19Component.publish_readings_uart]
      exact h
  · cases response with
    | none => rw [hnone]
    | some b => rw [hsome b]; split <;> rfl
  · rw [hsome buf]
    split <;> simp [*]
  · rw [hsome buf]
    split <;> simp [*]
  · rw [hsome buf]
    split <;> simp [*]
  · rw [hnone]

/-- C13: every operation of the driver (`recover`, `calibrate_zero`, `abc_enable`,
`abc_disable`, `setup`, `update`, `detection_range`) adds to the transport's output
either nothing or exactly one frame of 9 bytes of the form
`[0xFF, 0x01, cmd, 5 payload bytes, checksum]`, whose byte 8 equals `mhz19_checksum` of
its first 8 bytes and which passes the check the driver applies to responses. -/
theorem transmitted_frames_well_formed (c : MHZ19Component) (millis : Nat)
    (range : MHZ19DetectionRange) :
    SendsOneCommandFrame c c.recover ∧
      SendsOneCommandFrame c c.calibrate_zero ∧
      SendsOneCommandFrame c c.abc_enable ∧
      SendsOneCommandFrame c c.abc_disable ∧
      (SendsNothing c c.setup ∨ SendsOneCommandFrame c c.setup) ∧
      (SendsNothing c (c.update millis) ∨ SendsOneCommandFrame c (c.update millis)) ∧
      (SendsNothing c (c.detection_range range) ∨
        SendsOneCommandFrame c (c.detection_range range)) := by
  have hrec : SendsOneCommandFrame c c.recover :=
    MHZ19Component.sendsOneCommandFrame_of_append
      (MHZ19Component.write_command_none_tx c MHZ19_COMMAND_RECOVER rfl) (by decide)
  have hzero : SendsOneCommandFrame c c.calibrate_zero :=
    MHZ19Component.sendsOneCommandFrame_of_append
      (MHZ19Component.write_command_none_tx c MHZ19_COMMAND_CALIBRATE_ZERO rfl) (by decide)
  have hen : SendsOneCommandFrame c c.abc_enable :=
    MHZ19Component.sendsOneCommandFrame_of_append
      (MHZ19Component.write_command_none_tx c MHZ19_COMMAND_ABC_ENABLE rfl) (by decide)
  have hdis : SendsOneCommandFrame c c.abc_disable :=
    MHZ19Component.sendsOneCommandFrame_of_append
      (MHZ19Component.write_command_none_tx c MHZ19_COMMAND_ABC_DISABLE rfl) (by decide)
  refine ⟨hrec, hzero, hen, hdis, ?_, ?_, ?_⟩
  · unfold MHZ19Component.setup
    split_ifs
    · exact Or.inr hen
    · exact Or.inr hdis
    · exact Or.inl rfl
  · by_cases hgate : millis % 2 ^ 32 < c.warmup_seconds_ * 1000 % 2 ^ 32
    · left
      rw [MHZ19Component.update_gate_closed c millis hgate]
      rfl
    · right
      have htx := (MHZ19Component.update_uart_gate_open c millis hgate).1
      rw [List.append_assoc] at htx
      exact MHZ19Component.sendsOneCommandFrame_of_append htx (by decide)
  · cases range with
    | MHZ19_DETECTION_RANGE_DEFAULT => exact Or.inl rfl
    | MHZ19_DETECTION_RANGE_0_2000PPM =>
      exact Or.inr (MHZ19Component.sendsOneCommandFrame_of_append
        (MHZ19Component.write_command_none_tx c MHZ19_COMMAND_DETECTION_RANGE_0_2000PPM rfl)
        (by decide))
    | MHZ19_DETECTION_RANGE_0_5000PPM =>
      exact Or.inr (MHZ19Component.sendsOneCommandFrame_of_append
        (MHZ19Component.write_command_none_tx c MHZ19_COMMAND_DETECTION_RANGE_0_5000PPM rfl)
        (by decide))
    | MHZ19_DETECTION_RANGE_0_10000PPM =>
      exact Or.inr (MHZ19Component.sendsOneCommandFrame_of_append
        (MHZ19Component.write_command_none_tx c MHZ19_COMMAND_DETECTION_RANGE_0_10000PPM rfl)
        (by decide))

/-- C14 (no retries within a tick): for every component state (transport,
configuration) and clock value, one `update` either writes no byte and attempts no
9-byte read, or writes exactly the 9 bytes of one get-reading frame and attempts
exactly one 9-byte read; so it never attempts more than one read. -/
theorem update_single_exchange (c : MHZ19Component) (millis : Nat) :
    (((c.update millis).uart.tx = c.uart.tx ∧
          (c.update millis).uart.read_array_calls = c.uart.read_array_calls) ∨
        ((c.update millis).uart.tx =
            c.uart.tx ++ [0xFF, 0x01, 0x86, 0x00, 0x00, 0x00, 0x00, 0x00, 0x79] ∧
          (c.update millis).uart.tx.length = c.uart.tx.length + 9 ∧
          (c.update millis).uart.read_array_calls = c.uart.read_array_calls + 1)) ∧
      (c.update millis).uart.read_array_calls ≤ c.uart.read_array_calls + 1 := by
  by_cases hgate : millis % 2 ^ 32 < c.warmup_seconds_ * 1000 % 2 ^ 32
  · rw [MHZ19Component.update_gate_closed c millis hgate]
    exact ⟨Or.inl ⟨rfl, rfl⟩, Nat.le_succ _⟩
  · obtain ⟨htx, hcalls, _⟩ := MHZ19Component.update_uart_gate_open c millis hgate
    have hframe : c.uart.tx ++ MHZ19_COMMAND_GET_PPM ++ [mhz19_checksum MHZ19_COMMAND_GET_PPM] =
        c.uart.tx ++ [0xFF, 0x01, 0x86, 0x00, 0x00, 0x00, 0x00, 0x00, 0x79] := by
      rw [List.append_assoc]
      rfl
    rw [hframe] at htx
    refine ⟨Or.inr ⟨htx, ?_, hcalls⟩, by omega⟩
    rw [htx]
    simp

/-- C15 (optional sinks): for every valid response after warm-up, `update` clears the
warning status and publishes to a sink if and only if that sink is configured: a
configured CO2 sink receives `256 * r[2] + r[3]`, an absent one stays absent, a
configured temperature sink receives `r[4] - 40`, an absent one stays absent, each
independently of the other sink. -/
theorem update_optional_sinks (c : MHZ19Component) (millis : Nat) (r : List Nat)
    (hlen : r.length = 9) (hbytes : IsBytes r)
    (h0 : byteAt r 0 = 0xFF) (h1 : byteAt r 1 = 0x86) (h8 : byteAt r 8 = mhz19_checksum r)
    (hms : millis < 2 ^ 32) (hwarm : c.warmup_seconds_ * 1000 ≤ millis)
    (hreply : c.uart.incoming = r) :
    (c.update millis).status_warning = false ∧
      (c.co2_sensor_ = none → (c.update millis).co2_sensor_ = none) ∧
      (∀ s : Sensor, c.co2_sensor_ = some s →
        (c.update millis).co2_sensor_ =
          some { published := s.published ++ [((256 * byteAt r 2 + byteAt r 3 : Nat) : Int)] }) ∧
      (c.temperature_sensor_ = none → (c.update millis).temperature_sensor_ = none) ∧
      (∀ s : Sensor, c.temperature_sensor_ = some s →
        (c.update millis).temperature_sensor_ =
          some { published := s.published ++ [(byteAt r 4 : Int) - 40] }) := by
  have hgate := MHZ19Component.gate_open_of_elapsed c.warmup_seconds_ millis hms hwarm
  have hupd := MHZ19Component.update_of_valid_reply c millis r hgate hlen hbytes h0 h1 h8 hreply
  rw [hupd, MHZ19Component.publish_readings_status_warning,
    MHZ19Component.publish_readings_co2, MHZ19Component.publish_readings_temperature]
  refine ⟨rfl, ?_, ?_, ?_, ?_⟩
  · intro h
    simp only [h, Option.map_none']
  · intro s h
    simp only [h, Option.map_some', Sensor.publish_state]
  · intro h
    simp only [h, Option.map_none']
  · intro s h
    simp only [h, Option.map_some', Sensor.publish_state]

theorem update_optional_sinks_witness :
    ({ sample_component 75 sample_response with co2_sensor_ := none }.update
        75000).status_warning = false ∧
      ({ sample_component 75 sample_response with co2_sensor_ := none }.update
        75000).co2_sensor_ = none ∧
      ({ sample_component 75 sample_response with co2_sensor_ := none }.update
        75000).temperature_sensor_ = some { published := [0] } ∧
      ({ sample_component 75 sample_response with temperature_sensor_ := none }.update
        75000).co2_sensor_ = some { published := [1000] } ∧
      ({ sample_component 75 sample_response with temperature_sensor_ := none }.update
        75000).temperature_sensor_ = none := by
  have h1 := update_optional_sinks
    { sample_component 75 sample_response with co2_sensor_ := none } 75000 sample_response
    (by decide) (by decide) (by decide) (by decide) (by decide) (by decide) (by decide) rfl
  have h2 := update_optional_sinks
    { sample_component 75 sample_response with temperature_sensor_ := none } 75000
    sample_response
    (by decide) (by decide) (by decide) (by decide) (by decide) (by decide) (by decide) rfl
  exact ⟨h1.1, h1.2.1 rfl, h1.2.2.2.2 { published := [] } rfl,
    h2.2.2.1 { published := [] } rfl, h2.2.2.2.1 rfl⟩

/-- C16 (single-byte corruption is detected): for every 9-byte response `r` that
`update` accepts (`r[0] = 0xFF`, `r[1] = 0x86`, `r[8] = mhz19_checksum r`) and every
9-byte response `r2` that differs from `r` in exactly one byte position `i` of 0..8,
`update` on `r2` sets the warning status and publishes nothing. -/
theorem update_detects_single_byte_corruption (c : MHZ19Component) (millis : Nat)
    (r r2 : List Nat) (hlen : r.length = 9) (hlen2 : r2.length = 9)
    (hb : IsBytes r) (hb2 : IsBytes r2)
    (h0 : byteAt r 0 = 0xFF) (h1 : byteAt r 1 = 0x86) (h8 : byteAt r 8 = mhz19_checksum r)
    (i : Nat) (hi : i < 9) (hdiff : byteAt r2 i ≠ byteAt r i)
    (hsame : ∀ j, j < 9 → j ≠ i → byteAt r2 j = byteAt r j)
    (hms : millis < 2 ^ 32) (hwarm : c.warmup_seconds_ * 1000 ≤ millis)
    (hreply : c.uart.incoming = r2) :
    (c.update millis).status_warning = true ∧
      (c.update millis).co2_sensor_ = c.co2_sensor_ ∧
      (c.update millis).temperature_sensor_ = c.temperature_sensor_ := by
  have hgate := MHZ19Component.gate_open_of_elapsed c.warmup_seconds_ millis hms hwarm
  have hbad := MHZ19Component.corrupted_response_rejected r r2 hlen hlen2 hb hb2 h0 h1 h8 i hi
    hdiff hsame
  rw [MHZ19Component.update_of_reply c millis r2 hgate hlen2 hreply, if_pos hbad]
  exact ⟨rfl, rfl, rfl⟩

theorem update_detects_single_byte_corruption_witness :
    ((sample_component 75 [0xFF, 0x86, 0x03, 0xE8, 0x28, 0x40, 0x00, 0x00, 0x67]).update
        75000).status_warning = true ∧
      ((sample_component 75 [0xFF, 0x86, 0x03, 0xE8, 0x28, 0x40, 0x00, 0x00, 0x67]).update
        75000).co2_sensor_ = some { published := [] } ∧
      ((sample_component 75 [0xFF, 0x86, 0x03, 0xE8, 0x28, 0x40, 0x00, 0x00, 0x67]).update
        75000).temperature_sensor_ = some { published := [] } :=
  update_detects_single_byte_corruption
    (sample_component 75 [0xFF, 0x86, 0x03, 0xE8, 0x28, 0x40, 0x00, 0x00, 0x67]) 75000
    sample_response [0xFF, 0x86, 0x03, 0xE8, 0x28, 0x40, 0x00, 0x00, 0x67]
    (by decide) (by decide) (by decide) (by decide) (by decide) (by decide) (by decide)
    5 (by decide) (by decide) (by decide) (by decide) (by decide) rfl

/-- C17: for every accepted response, the CO2 value `update` publishes is
`256 * r[2] + r[3]`, which lies in 0..65535, and the temperature it publishes is the
integer `r[4] - 40` with no 8-bit wraparound, which lies in -40..215 (`r[4] = 0` gives
-40 and `r[4] = 255` gives 215). -/
theorem update_published_ranges (c : MHZ19Component) (millis : Nat) (r : List Nat)
    (hlen : r.length = 9) (hbytes : IsBytes r)
    (h0 : byteAt r 0 = 0xFF) (h1 : byteAt r 1 = 0x86) (h8 : byteAt r 8 = mhz19_checksum r)
    (hms : millis < 2 ^ 32) (hwarm : c.warmup_seconds_ * 1000 ≤ millis)
    (hreply : c.uart.incoming = r) :
    (c.update millis).co2_sensor_ =
        c.co2_sensor_.map
          (fun s => s.publish_state ((256 * byteAt r 2 + byteAt r 3 : Nat) : Int)) ∧
      (0 : Int) ≤ ((256 * byteAt r 2 + byteAt r 3 : Nat) : Int) ∧
      ((256 * byteAt r 2 + byteAt r 3 : Nat) : Int) ≤ 65535 ∧
      (c.update millis).temperature_sensor_ =
        c.temperature_sensor_.map (fun s => s.publish_state ((byteAt r 4 : Int) - 40)) ∧
      (-40 : Int) ≤ (byteAt r 4 : Int) - 40 ∧ (byteAt r 4 : Int) - 40 ≤ 215 ∧
      (byteAt r 4 = 0 → (c.update millis).temperature_sensor_ =
        c.temperature_sensor_.map (fun s => s.publish_state (-40))) ∧
      (byteAt r 4 = 255 → (c.update millis).temperature_sensor_ =
        c.temperature_sensor_.map (fun s => s.publish_state 215)) := by
  have hgate := MHZ19Component.gate_open_of_elapsed c.warmup_seconds_ millis hms hwarm
  have hupd := MHZ19Component.update_of_valid_reply c millis r hgate hlen hbytes h0 h1 h8 hreply
  have h2 := byteAt_lt hbytes 2
  have h3 := byteAt_lt hbytes 3
  have h4 := byteAt_lt hbytes 4
  rw [hupd, MHZ19Component.publish_readings_co2, MHZ19Component.publish_readings_temperature]
  refine ⟨rfl, by omega, by omega, rfl, by omega, by omega, ?_, ?_⟩
  · intro h
    rw [h]
    rfl
  · intro h
    rw [h]
    rfl

theorem update_published_ranges_witness :
    ((sample_component 75 [0xFF, 0x86, 0xFF, 0xFF, 0xFF, 0x00, 0x00, 0x00, 0x7D]).update
        75000).co2_sensor_ = some { published := [65535] } ∧
      ((sample_component 75 [0xFF, 0x86, 0xFF, 0xFF, 0xFF, 0x00, 0x00, 0x00, 0x7D]).update
        75000).temperature_sensor_ = some { published := [215] } ∧
      ((sample_component 75 [0xFF, 0x86, 0x00, 0x00, 0x00, 0x00, 0x00, 0x00, 0x7A]).update
        75000).co2_sensor_ = some { published := [0] } ∧
      ((sample_component 75 [0xFF, 0x86, 0x00, 0x00, 0x00, 0x00, 0x00, 0x00, 0x7A]).update
        75000).temperature_sensor_ = some { published := [-40] } := by
  have hi := update_published_ranges
    (sample_component 75 [0xFF, 0x86, 0xFF, 0xFF, 0xFF, 0x00, 0x00, 0x00, 0x7D]) 75000
    [0xFF, 0x86, 0xFF, 0xFF, 0xFF, 0x00, 0x00, 0x00, 0x7D]
    (by decide) (by decide) (by decide) (by decide) (by decide) (by decide) (by decide) rfl
  have lo := update_published_ranges
    (sample_component 75 [0xFF, 0x86, 0x00, 0x00, 0x00, 0x00, 0x00, 0x00, 0x7A]) 75000
    [0xFF, 0x86, 0x00, 0x00, 0x00, 0x00, 0x00, 0x00, 0x7A]
    (by decide) (by decide) (by decide) (by decide) (by decide) (by decide) (by decide) rfl
  exact ⟨hi.1, hi.2.2.2.2.2.2.2 rfl, lo.1, lo.2.2.2.2.2.2.1 rfl⟩

/-- C18: for each non-default detection range, the frame `detection_range` sends has
bytes 6 and 7 that, read as a big-endian 16-bit integer, equal the upper limit the
range is named for (2000, 5000 and 10000), so the three frames are pairwise distinct. -/
theorem detection_range_limits (c : MHZ19Component) :
    ((c.detection_range .MHZ19_DETECTION_RANGE_0_2000PPM).uart.tx =
          c.uart.tx ++ (MHZ19_COMMAND_DETECTION_RANGE_0_2000PPM ++
            [mhz19_checksum MHZ19_COMMAND_DETECTION_RANGE_0_2000PPM]) ∧
        256 * byteAt MHZ19_COMMAND_DETECTION_RANGE_0_2000PPM 6 +
          byteAt MHZ19_COMMAND_DETECTION_RANGE_0_2000PPM 7 = 2000) ∧
      ((c.detection_range .MHZ19_DETECTION_RANGE_0_5000PPM).uart.tx =
          c.uart.tx ++ (MHZ19_COMMAND_DETECTION_RANGE_0_5000PPM ++
            [mhz19_checksum MHZ19_COMMAND_DETECTION_RANGE_0_5000PPM]) ∧
        256 * byteAt MHZ19_COMMAND_DETECTION_RANGE_0_5000PPM 6 +
          byteAt MHZ19_COMMAND_DETECTION_RANGE_0_5000PPM 7 = 5000) ∧
      ((c.detection_range .MHZ19_DETECTION_RANGE_0_10000PPM).uart.tx =
          c.uart.tx ++ (MHZ19_COMMAND_DETECTION_RANGE_0_10000PPM ++
            [mhz19_checksum MHZ19_COMMAND_DETECTION_RANGE_0_10000PPM]) ∧
        256 * byteAt MHZ19_COMMAND_DETECTION_RANGE_0_10000PPM 6 +
          byteAt MHZ19_COMMAND_DETECTION_RANGE_0_10000PPM 7 = 10000) ∧
      MHZ19_COMMAND_DETECTION_RANGE_0_2000PPM ≠ MHZ19_COMMAND_DETECTION_RANGE_0_5000PPM ∧
      MHZ19_COMMAND_DETECTION_RANGE_0_2000PPM ≠ MHZ19_COMMAND_DETECTION_RANGE_0_10000PPM ∧
      MHZ19_COMMAND_DETECTION_RANGE_0_5000PPM ≠ MHZ19_COMMAND_DETECTION_RANGE_0_10000PPM ∧
      (c.detection_range .MHZ19_DETECTION_RANGE_0_2000PPM).uart.tx ≠
        (c.detection_range .MHZ19_DETECTION_RANGE_0_5000PPM).uart.tx ∧
      (c.detection_range .MHZ19_DETECTION_RANGE_0_2000PPM).uart.tx ≠
        (c.detection_range .MHZ19_DETECTION_RANGE_0_10000PPM).uart.tx ∧
      (c.detection_range .MHZ19_DETECTION_RANGE_0_5000PPM).uart.tx ≠
        (c.detection_range .MHZ19_DETECTION_RANGE_0_10000PPM).uart.tx := by
  have e2 := MHZ19Component.write_command_none_tx c MHZ19_COMMAND_DETECTION_RANGE_0_2000PPM rfl
  have e5 := MHZ19Component.write_command_none_tx c MHZ19_COMMAND_DETECTION_RANGE_0_5000PPM rfl
  have e10 := MHZ19Component.write_command_none_tx c MHZ19_COMMAND_DETECTION_RANGE_0_10000PPM rfl
  refine ⟨⟨e2, by decide⟩, ⟨e5, by decide⟩, ⟨e10, by decide⟩, by decide, by decide, by decide,
    ?_, ?_, ?_⟩
  · intro h
    rw [MHZ19Component.detection_range, MHZ19Component.detection_range, e2, e5] at h
    exact absurd (List.append_cancel_left h) (by decide)
  · intro h
    rw [MHZ19Component.detection_range, MHZ19Component.detection_range, e2, e10] at h
    exact absurd (List.append_cancel_left h) (by decide)
  · intro h
    rw [MHZ19Component.detection_range, MHZ19Component.detection_range, e5, e10] at h
    exact absurd (List.append_cancel_left h) (by decide)

end mhz19
end esphome
